import Mathlib

/-!
Verification of the subprocess execution core of the SWHID conformance
harness (`harness/plugins/subprocess_adapter.py`).

The development shallowly embeds `SubprocessAdapter._compute_via_subprocess`,
`SubprocessAdapter._compute_with_monitoring` and the facade
`SubprocessAdapter.compute_swhid`.  External effects (whether the child
timed out, its exit code, its stdout/stderr text, the post-exit RSS sample,
whether the child died within the kill grace period, ...) are supplied as
oracle inputs in a `RunInputs` record; the adapter's control flow over those
observations is translated line by line.  Besides the final value (a
returned identifier or a raised Python exception, modelled as
`Except PyError Json`), the embedding emits a trace of the side-effecting
steps (working-directory creation/removal, spawn, terminate/kill, reap), so
that resource-discipline and termination-protocol properties are statable.

`json.loads` (Python standard library, called on the child's stdout) is
modelled by an executable recursive-descent parser `loads` over the same
grammar Python's scanner accepts (objects, arrays, strings with escapes,
numbers with optional fraction/exponent, `true/false/null` and the Python
extensions `NaN`/`Infinity`/`-Infinity`), with the same strictness: exactly
one document, surrounding whitespace allowed, anything else after it is an
"Extra data" error.  The positional detail of Python's error strings
(line/column numbers) is abstracted; no property below depends on it.
-/

/-- A parsed JSON value, as produced by Python's `json.loads`.
Numbers carry their exact rational value plus a flag recording whether the
source lexeme had a fraction or exponent (Python would produce a `float`);
`nan`/`inf` mirror Python's acceptance of `NaN`, `Infinity`, `-Infinity`.
Objects keep their fields in source order; duplicate keys are resolved by
`objGet` (last binding wins, as in a Python `dict`). -/
inductive Json where
  | null : Json
  | bool (b : Bool) : Json
  | num (q : Rat) (isFloat : Bool) : Json
  | nan : Json
  | inf (neg : Bool) : Json
  | str (s : String) : Json
  | arr (xs : List Json) : Json
  | obj (fields : List (String × Json)) : Json

/-- JSON whitespace, as skipped by Python's scanner: space, tab, LF, CR. -/
def jsonWs (c : Char) : Bool :=
  c == ' ' || c == '\t' || c == '\n' || c == '\r'

/-- Skip JSON whitespace. -/
def skipWs (cs : List Char) : List Char :=
  cs.dropWhile jsonWs

/-- Hexadecimal digit value, for `\uXXXX` escapes. -/
def hexDigit (c : Char) : Option Nat :=
  if '0' ≤ c ∧ c ≤ '9' then some (c.toNat - 48)
  else if 'a' ≤ c ∧ c ≤ 'f' then some (c.toNat - 87)
  else if 'A' ≤ c ∧ c ≤ 'F' then some (c.toNat - 55)
  else none

/-- Body of a JSON string after the opening quote: ordinary characters,
backslash escapes and `\uXXXX`; unescaped control characters are rejected
(Python's default `strict=True`).  Returns the string and the remainder. -/
def parseStringAux : List Char → List Char → Except String (String × List Char)
  | _, [] => .error "Unterminated string"
  | acc, '"' :: rest => .ok (⟨acc.reverse⟩, rest)
  | acc, '\\' :: c :: rest =>
    if c = '"' then parseStringAux ('"' :: acc) rest
    else if c = '\\' then parseStringAux ('\\' :: acc) rest
    else if c = '/' then parseStringAux ('/' :: acc) rest
    else if c = 'b' then parseStringAux ('\x08' :: acc) rest
    else if c = 'f' then parseStringAux ('\x0c' :: acc) rest
    else if c = 'n' then parseStringAux ('\n' :: acc) rest
    else if c = 'r' then parseStringAux ('\r' :: acc) rest
    else if c = 't' then parseStringAux ('\t' :: acc) rest
    else if c = 'u' then
      match rest with
      | a :: b :: c2 :: d :: rest2 =>
        match hexDigit a, hexDigit b, hexDigit c2, hexDigit d with
        | some ha, some hb, some hc, some hd =>
          parseStringAux (Char.ofNat (((ha * 16 + hb) * 16 + hc) * 16 + hd) :: acc) rest2
        | _, _, _, _ => .error "Invalid hex escape"
      | _ => .error "Invalid hex escape"
    else .error "Invalid escape"
  | _, '\\' :: [] => .error "Unterminated string"
  | acc, c :: rest =>
    if c.toNat < 32 then .error "Invalid control character"
    else parseStringAux (c :: acc) rest

/-- Value of a digit string. -/
def digitsToNat (ds : List Char) : Nat :=
  ds.foldl (fun n c => n * 10 + (c.toNat - 48)) 0

/-- Optional exponent part `([eE][-+]?digits)`.  Like Python's NUMBER_RE,
a malformed exponent is simply not consumed.  Returns (present, value,
remainder). -/
def parseExp (cs : List Char) : Bool × Int × List Char :=
  match cs with
  | 'e' :: r => parseExpDigits r cs
  | 'E' :: r => parseExpDigits r cs
  | _ => (false, 0, cs)
where
  parseExpDigits (r orig : List Char) : Bool × Int × List Char :=
    let (eneg, r1) :=
      match r with
      | '+' :: t => (false, t)
      | '-' :: t => (true, t)
      | _ => (false, r)
    let ds := r1.takeWhile Char.isDigit
    if ds.isEmpty then (false, 0, orig)
    else (true, (if eneg then -1 else 1) * (digitsToNat ds : Int), r1.dropWhile Char.isDigit)

/-- A JSON number per Python's `NUMBER_RE`:
`-?(0|[1-9][0-9]*)(\.[0-9]+)?([eE][-+]?[0-9]+)?`.  A malformed fraction or
exponent is left unconsumed (the regex just matches less), mirroring the
scanner.  Leading zeros stop the integer part after the `0`. -/
def parseNumber (cs : List Char) : Except String (Json × List Char) :=
  let (neg, cs1) := match cs with | '-' :: r => (true, r) | _ => (false, cs)
  match cs1 with
  | [] => .error "Expecting value"
  | c :: tl =>
    if c.isDigit = false then .error "Expecting value"
    else
      let (ip, r1) :=
        if c = '0' then (['0'], tl)
        else (cs1.takeWhile Char.isDigit, cs1.dropWhile Char.isDigit)
      let (fp, r2) :=
        match r1 with
        | '.' :: fr =>
          let ds := fr.takeWhile Char.isDigit
          if ds.isEmpty then (([] : List Char), r1) else (ds, fr.dropWhile Char.isDigit)
        | _ => (([] : List Char), r1)
      let (hasExp, ex, r3) := parseExp r2
      let mant : Int := (if neg then -1 else 1) * (digitsToNat (ip ++ fp) : Int)
      let e10 : Int := ex - (fp.length : Int)
      let q : Rat :=
        if 0 ≤ e10 then ((mant * (10 : Int) ^ e10.toNat : Int) : Rat)
        else mkRat mant ((10 : Nat) ^ (-e10).toNat)
      .ok (.num q (!fp.isEmpty || hasExp), r3)

mutual

/-- One JSON value starting at the head of the input (no leading
whitespace).  The fuel argument only bounds recursion depth; callers pass
more fuel than any input of that length can consume, so the
"Too deeply nested" branch is unreachable in practice. -/
def parseValue : Nat → List Char → Except String (Json × List Char)
  | 0, _ => .error "Too deeply nested"
  | fuel + 1, cs =>
    match cs with
    | [] => .error "Expecting value"
    | '"' :: rest =>
      match parseStringAux [] rest with
      | .error e => .error e
      | .ok (s, r) => .ok (.str s, r)
    | '\x7b' :: rest => parseObjectStart fuel (skipWs rest)
    | '[' :: rest => parseArrayStart fuel (skipWs rest)
    | 't' :: 'r' :: 'u' :: 'e' :: rest => .ok (.bool true, rest)
    | 'f' :: 'a' :: 'l' :: 's' :: 'e' :: rest => .ok (.bool false, rest)
    | 'n' :: 'u' :: 'l' :: 'l' :: rest => .ok (.null, rest)
    | 'N' :: 'a' :: 'N' :: rest => .ok (.nan, rest)
    | 'I' :: 'n' :: 'f' :: 'i' :: 'n' :: 'i' :: 't' :: 'y' :: rest => .ok (.inf false, rest)
    | '-' :: 'I' :: 'n' :: 'f' :: 'i' :: 'n' :: 'i' :: 't' :: 'y' :: rest => .ok (.inf true, rest)
    | _ => parseNumber cs

/-- After the opening brace and whitespace: an empty object or its first
member. -/
def parseObjectStart : Nat → List Char → Except String (Json × List Char)
  | 0, _ => .error "Too deeply nested"
  | fuel + 1, cs =>
    match cs with
    | '\x7d' :: rest => .ok (.obj [], rest)
    | _ => parseMembers fuel cs []

/-- Members of an object: `"key" : value (, "key" : value)*` then the
closing brace. -/
def parseMembers : Nat → List Char → List (String × Json) →
    Except String (Json × List Char)
  | 0, _, _ => .error "Too deeply nested"
  | fuel + 1, cs, acc =>
    match cs with
    | '"' :: rest =>
      match parseStringAux [] rest with
      | .error e => .error e
      | .ok (k, r1) =>
        match skipWs r1 with
        | ':' :: r2 =>
          match parseValue fuel (skipWs r2) with
          | .error e => .error e
          | .ok (v, r3) =>
            match skipWs r3 with
            | ',' :: r4 => parseMembers fuel (skipWs r4) (acc ++ [(k, v)])
            | '\x7d' :: r4 => .ok (.obj (acc ++ [(k, v)]), r4)
            | _ => .error "Expecting comma delimiter"
        | _ => .error "Expecting colon delimiter"
    | _ => .error "Expecting property name enclosed in double quotes"

/-- After the opening bracket and whitespace: an empty array or its first
item. -/
def parseArrayStart : Nat → List Char → Except String (Json × List Char)
  | 0, _ => .error "Too deeply nested"
  | fuel + 1, cs =>
    match cs with
    | ']' :: rest => .ok (.arr [], rest)
    | _ => parseItems fuel cs []

/-- Items of an array: `value (, value)*` then the closing bracket. -/
def parseItems : Nat → List Char → List Json → Except String (Json × List Char)
  | 0, _, _ => .error "Too deeply nested"
  | fuel + 1, cs, acc =>
    match parseValue fuel cs with
    | .error e => .error e
    | .ok (v, r1) =>
      match skipWs r1 with
      | ',' :: r2 => parseItems fuel (skipWs r2) (acc ++ [v])
      | ']' :: r2 => .ok (.arr (acc ++ [v]), r2)
      | _ => .error "Expecting comma delimiter"

end

/-- Model of Python's `json.loads`: skip surrounding whitespace, parse
exactly one document, and reject any trailing non-whitespace input with
"Extra data". -/
def loads (s : String) : Except String Json :=
  match parseValue (4 * (s.data.length + 1)) (skipWs s.data) with
  | .error e => .error e
  | .ok (v, rest) => if (skipWs rest).isEmpty then .ok v else .error "Extra data"

example : loads "\x7b\"ok\": true, \"swhid\": \"swh:1:cnt:ab\"\x7d" =
    .ok (.obj [("ok", .bool true), ("swhid", .str "swh:1:cnt:ab")]) := rfl

example : loads "  [1, -2.5e1, null]  " =
    .ok (.arr [.num 1 false, .num (-25) true, .null]) := rfl

example : loads "not json" = .error "Expecting value" := rfl

example : loads "\x7b\x7d x" = .error "Extra data" := rfl

example : loads "\x7b\x7d  " = .ok (.obj []) := rfl

/-! ## Python value helpers -/

/-- Python truthiness of a JSON-derived value (`if not x`): `None`,
`False`, numeric zero, and empty strings/lists/dicts are falsy. -/
def truthy : Json → Bool
  | .null => false
  | .bool b => b
  | .num q _ => q != 0
  | .nan => true
  | .inf _ => true
  | .str s => s != ""
  | .arr xs => !xs.isEmpty
  | .obj fs => !fs.isEmpty

/-- Truthiness of `dict.get`'s result: a missing key yields `None`,
which is falsy. -/
def truthyOpt : Option Json → Bool
  | none => false
  | some v => truthy v

/-- `dict.get(k)` on a parsed JSON object.  Built from the field list in
source order with the last duplicate winning, as Python's `dict` keeps only
the last binding of a repeated key. -/
def objGet (fs : List (String × Json)) (k : String) : Option Json :=
  fs.foldl (fun acc p => if p.1 = k then some p.2 else acc) none

/-- Python type name of a JSON-derived value, as it appears in an
`AttributeError` message. -/
def pyType : Json → String
  | .null => "NoneType"
  | .bool _ => "bool"
  | .num _ isFloat => if isFloat then "float" else "int"
  | .nan => "float"
  | .inf _ => "float"
  | .str _ => "str"
  | .arr _ => "list"
  | .obj _ => "dict"

mutual

/-- Python `repr` of a JSON-derived value (used for non-string values
inside f-strings via container `str`).  The decimal rendering of floats is
abstracted by the rational's own rendering; no property below depends on
it. -/
def pyRepr : Json → String
  | .null => "None"
  | .bool true => "True"
  | .bool false => "False"
  | .num q isFloat => if isFloat then toString q else toString q.num
  | .nan => "nan"
  | .inf true => "-inf"
  | .inf false => "inf"
  | .str s => "\x27" ++ s ++ "\x27"
  | .arr xs => "[" ++ pyReprList xs ++ "]"
  | .obj fs => "\x7b" ++ pyReprFields fs ++ "\x7d"

/-- Comma-separated `repr`s of list items. -/
def pyReprList : List Json → String
  | [] => ""
  | [x] => pyRepr x
  | x :: xs => pyRepr x ++ ", " ++ pyReprList xs

/-- Comma-separated `repr`s of dict entries. -/
def pyReprFields : List (String × Json) → String
  | [] => ""
  | [(k, v)] => "\x27" ++ k ++ "\x27: " ++ pyRepr v
  | (k, v) :: fs => "\x27" ++ k ++ "\x27: " ++ pyRepr v ++ ", " ++ pyReprFields fs

end

/-- Python `str` of a JSON-derived value, as interpolated by an f-string:
strings are taken verbatim, other values via `repr`. -/
def pyStr : Json → String
  | .str s => s
  | v => pyRepr v

/-- `error.get(k, default)` rendered through an f-string: the field's
value if the key is present (via `pyStr`), else the default text. -/
def pyGetStr (fs : List (String × Json)) (k : String) (dflt : String) : String :=
  match objGet fs k with
  | none => dflt
  | some v => pyStr v

/-- Python `str.strip()`-default whitespace. -/
def pyWs (c : Char) : Bool :=
  c == ' ' || c == '\t' || c == '\n' || c == '\r' || c == '\x0b' || c == '\x0c'

/-- Model of Python `str.strip()`: drop leading and trailing whitespace. -/
def pyStrip (s : String) : String :=
  ⟨((s.data.dropWhile pyWs).reverse.dropWhile pyWs).reverse⟩

/-- Model of Python's slice `s[:200]` (by code points). -/
def pySlice200 (s : String) : String :=
  ⟨s.data.take 200⟩

/-! ## Outcomes and raised exceptions -/

/-- A raised Python exception, observed as its class name and message. -/
structure PyError where
  cls : String
  msg : String
deriving DecidableEq

/-- The outcome `_compute_via_subprocess` decides before it surfaces it to
the caller (as a return value or a raised exception).  Constructors follow
the branches of the source, lines 115-196 of
`harness/plugins/subprocess_adapter.py`. -/
inductive Outcome where
  | success (v : Json)
  | timedOut (timeoutS : Nat)
  | resourceExceeded (kb lim : Nat)
  | implFailure (code : Int) (diag : String)
  | invalidJson (err : String) (raw : String)
  | implError (code msg : String)
  | noSwhid
  | attrError (tyName : String)
  | pythonNotFound
  | spawnFailed (msg : String)

/-- The specification's closed error taxonomy (§7), plus `success` and a
catch-all `other` for anything the taxonomy does not name. -/
inductive Kind where
  | success
  | timedOut
  | resourceExceeded
  | implementationFailure
  | protocolError
  | implementationError
  | other
deriving DecidableEq

/-- Where each concrete outcome of the code falls in the specification's
taxonomy: invalid JSON and a missing result field are the spec's
`ProtocolError` cases (§4.3); `AttributeError`s, a missing interpreter and
a failed spawn are named by no taxonomy entry. -/
def kindOf : Outcome → Kind
  | .success _ => .success
  | .timedOut _ => .timedOut
  | .resourceExceeded _ _ => .resourceExceeded
  | .implFailure _ _ => .implementationFailure
  | .invalidJson _ _ => .protocolError
  | .noSwhid => .protocolError
  | .implError _ _ => .implementationError
  | .attrError _ => .other
  | .pythonNotFound => .other
  | .spawnFailed _ => .other

/-- How each outcome reaches the caller: the returned value, or the raised
exception with the exact message the source formats (f-strings at lines
167, 172, 178, 184, 190, 194; the `AttributeError` is CPython's own text
for `value.get(...)` on a non-dict). -/
def render : Outcome → Except PyError Json
  | .success v => .ok v
  | .timedOut t =>
    .error ⟨"RuntimeError", "Implementation timed out after " ++ toString t ++ "s"⟩
  | .resourceExceeded kb lim =>
    .error ⟨"RuntimeError",
      "RSS limit exceeded: " ++ toString kb ++ "KB > " ++ toString lim ++ "KB"⟩
  | .implFailure c d =>
    .error ⟨"RuntimeError", "Implementation failed (exit " ++ toString c ++ "): " ++ d⟩
  | .invalidJson e raw =>
    .error ⟨"RuntimeError",
      "Invalid JSON response: " ++ e ++ "\nOutput: " ++ pySlice200 raw⟩
  | .implError c m =>
    .error ⟨"RuntimeError", "Implementation error [" ++ c ++ "]: " ++ m⟩
  | .noSwhid => .error ⟨"RuntimeError", "No SWHID in response"⟩
  | .attrError ty =>
    .error ⟨"AttributeError", "\x27" ++ ty ++ "\x27 object has no attribute \x27get\x27"⟩
  | .pythonNotFound => .error ⟨"RuntimeError", "Python interpreter not found"⟩
  | .spawnFailed m => .error ⟨"OSError", m⟩

/-- Diagnostic text for a non-zero exit (line 177):
`stderr.strip() or stdout.strip() or "Unknown error"`. -/
def diagnostic (stderr stdout : String) : String :=
  if pyStrip stderr ≠ "" then pyStrip stderr
  else if pyStrip stdout ≠ "" then pyStrip stdout
  else "Unknown error"

/-- The codec step (lines 180-196): parse stdout, branch on `ok`, extract
`error`/`swhid`.  `response.get` on a non-dict parse result, and
`error.get` on a non-dict `error` field, raise `AttributeError`. -/
def codec (stdout : String) : Outcome :=
  match loads stdout with
  | .error e => .invalidJson e stdout
  | .ok (.obj fs) =>
    if truthyOpt (objGet fs "ok") = false then
      match (objGet fs "error").getD (.obj []) with
      | .obj efs =>
        .implError (pyGetStr efs "code" "UNKNOWN") (pyGetStr efs "message" "Unknown error")
      | v => .attrError (pyType v)
    else
      if truthy ((objGet fs "swhid").getD .null) = false then .noSwhid
      else .success ((objGet fs "swhid").getD .null)
  | .ok v => .attrError (pyType v)

/-! ## The supervisor's control flow -/

/-- Observable side-effecting steps of one `_compute_via_subprocess` call.
`terminateGroup` (a signal to the child's process group) is an action the
specification describes; the source never performs it, which the trace
makes provable. -/
inductive Event where
  | mkWorkdir (name : String)
  | spawn
  | sendRequest
  | reaped
  | sampleRss
  | terminate
  | terminateGroup
  | waitGrace
  | kill
  | rmWorkdir (name : String)
deriving DecidableEq

/-- Adapter configuration (constructor arguments, lines 38-63). -/
structure Config where
  timeout : Nat
  maxRssMb : Nat
  maxCpuTime : Nat

/-- The constructor's defaults: `timeout=30`, `max_rss_mb=500`,
`max_cpu_time=60`. -/
def defaultConfig : Config := ⟨30, 500, 60⟩

/-- Oracle inputs for one subprocess-mode call: everything the environment
(OS, child process) decides, which the adapter merely observes.
`existing` is the set of working-directory names already in use (for
`tempfile.mkdtemp`'s freshness contract); `rssSample` is the post-exit
`psutil` memory sample, `none` when `NoSuchProcess`/`AccessDenied` was
raised; `terminateRaises` models `terminate()` raising
`NoSuchProcess`/`AccessDenied`; `diesWithinGrace` tells whether
`wait(timeout=5)` returned before the grace period ran out; `rmFails`
models an error inside the final `shutil.rmtree`. -/
structure RunInputs where
  existing : List String
  pythonFound : Bool
  spawnError : Option String
  timedOut : Bool
  terminateRaises : Bool
  diesWithinGrace : Bool
  rssSample : Option Nat
  exitCode : Int
  stdout : String
  stderr : String
  rmFails : Bool

/-- The `except subprocess.TimeoutExpired` handler (lines 157-167):
`terminate()`; if that raises `NoSuchProcess`/`AccessDenied`, nothing more;
otherwise `wait(timeout=5)`, which reaps the child if it dies in time, and
`kill()` (with no further wait) if it does not. -/
def timeoutEvents (inp : RunInputs) : List Event :=
  if inp.terminateRaises then []
  else if inp.diesWithinGrace then [.terminate, .waitGrace, .reaped]
  else [.terminate, .waitGrace, .kill]

/-- The body of `_compute_via_subprocess` between workdir creation and the
`finally` block (lines 115-196), as a decision over the oracle inputs plus
the trace of steps it performs.  `communicate` both sends the request and,
when it returns in time, reaps the child; the RSS sample is taken right
after. -/
def classify (cfg : Config) (inp : RunInputs) : Outcome × List Event :=
  if inp.pythonFound then
    match inp.spawnError with
    | some m => (.spawnFailed m, [])
    | none =>
      if inp.timedOut then
        (.timedOut cfg.timeout, [Event.spawn, Event.sendRequest] ++ timeoutEvents inp)
      else
        (if cfg.maxRssMb * 1024 < inp.rssSample.getD 0 then
          .resourceExceeded (inp.rssSample.getD 0) (cfg.maxRssMb * 1024)
        else if inp.exitCode ≠ 0 then
          .implFailure inp.exitCode (diagnostic inp.stderr inp.stdout)
        else codec inp.stdout,
        [Event.spawn, Event.sendRequest, Event.reaped, Event.sampleRss])
  else (.pythonNotFound, [])

/-- A working-directory name not among `existing`: realizes
`tempfile.mkdtemp`'s contract that the created directory is fresh, with an
explicit name longer than every name in use. -/
def freshName (existing : List String) : String :=
  ⟨List.replicate (existing.foldl (fun n s => n + s.length) 0 + 1) 'x'⟩

/-- `SubprocessAdapter._compute_via_subprocess` (lines 98-203): create the
working directory, run the body, and in all cases (`finally`) remove the
directory, any removal error being suppressed.  Returns the call's value
(`Except` models return vs. raise) and the full step trace. -/
def computeViaSubprocess (cfg : Config) (inp : RunInputs) :
    Except PyError Json × List Event :=
  let wd := freshName inp.existing
  let r := classify cfg inp
  (render r.1, Event.mkWorkdir wd :: (r.2 ++ [Event.rmWorkdir wd]))

/-! ## The in-process fallback -/

/-- Oracle inputs for one `_compute_with_monitoring` call: whether
`run_with_timeout` raised `subprocess.TimeoutExpired`; the wrapped
implementation's result (`.error` is the message of an exception it, or
any later in-`try` step, raised); the RSS readings before and after; CPU
milliseconds consumed. -/
structure MonitorInputs where
  timedOut : Bool
  implOutcome : Except String String
  startRssKb : Nat
  endRssKb : Nat
  cpuMs : Nat

/-- `SubprocessAdapter._compute_with_monitoring` (lines 205-249).  The
`try` block runs the wrapped implementation and then checks the RSS and
CPU ceilings, raising `RuntimeError` inline; `except
subprocess.TimeoutExpired` maps a timeout to the same message as the
subprocess path, and the catch-all `except Exception` re-wraps **every**
other exception — including the adapter's own limit-check
`RuntimeError`s — as `"Subprocess execution failed: ..."`. -/
def computeWithMonitoring (cfg : Config) (inp : MonitorInputs) :
    Except PyError String :=
  if inp.timedOut then
    .error ⟨"RuntimeError", "Implementation timed out after " ++ toString cfg.timeout ++ "s"⟩
  else
    match inp.implOutcome with
    | .error e => .error ⟨"RuntimeError", "Subprocess execution failed: " ++ e⟩
    | .ok result =>
      let maxRssKb := max inp.startRssKb inp.endRssKb
      if cfg.maxRssMb * 1024 < maxRssKb then
        .error ⟨"RuntimeError",
          "Subprocess execution failed: RSS limit exceeded: " ++ toString maxRssKb
            ++ "KB > " ++ toString (cfg.maxRssMb * 1024) ++ "KB"⟩
      else if cfg.maxCpuTime * 1000 < inp.cpuMs then
        .error ⟨"RuntimeError",
          "Subprocess execution failed: CPU time limit exceeded: " ++ toString inp.cpuMs
            ++ "ms > " ++ toString (cfg.maxCpuTime * 1000) ++ "ms"⟩
      else .ok result

/-- `SubprocessAdapter.compute_swhid` (lines 83-96): dispatch on
`use_subprocess` between the two modes. -/
def computeSwhid (cfg : Config) (useSubprocess : Bool) (sub : RunInputs)
    (mon : MonitorInputs) : Except PyError Json :=
  if useSubprocess then (computeViaSubprocess cfg sub).1
  else (computeWithMonitoring cfg mon).map Json.str

/-- Prefix test on strings, by their character lists. -/
def strHasPrefix (p s : String) : Bool :=
  p.data.isPrefixOf s.data

/-- Classify a raised exception into the taxonomy by the message shapes
`render` produces (the only observable the caller can branch on, since
every taxonomy failure is raised as a `RuntimeError`). -/
def msgKind (e : PyError) : Kind :=
  if e.cls ≠ "RuntimeError" then .other
  else if strHasPrefix "Implementation timed out after " e.msg then .timedOut
  else if strHasPrefix "RSS limit exceeded: " e.msg then .resourceExceeded
  else if strHasPrefix "Implementation failed (exit " e.msg then .implementationFailure
  else if strHasPrefix "Invalid JSON response: " e.msg then .protocolError
  else if e.msg = "No SWHID in response" then .protocolError
  else if strHasPrefix "Implementation error [" e.msg then .implementationError
  else .other

/-! ## Helper lemmas -/

lemma foldl_len_eq (l : List String) (acc : Nat) :
    l.foldl (fun n s => n + s.length) acc = acc + l.foldl (fun n s => n + s.length) 0 := by
  induction l generalizing acc with
  | nil => simp
  | cons a t ih =>
    simp only [List.foldl_cons]
    rw [ih (acc + a.length), ih (0 + a.length)]
    omega

lemma len_le_foldl (l : List String) (s : String) (hs : s ∈ l) :
    s.length ≤ l.foldl (fun n s => n + s.length) 0 := by
  induction l with
  | nil => cases hs
  | cons a t ih =>
    simp only [List.foldl_cons, Nat.zero_add]
    rw [foldl_len_eq]
    rcases List.mem_cons.mp hs with h | h
    · subst h; omega
    · have := ih h; omega

/-- The fresh working-directory name is distinct from every name in use
(it is strictly longer than each of them). -/
lemma freshName_not_mem (l : List String) : freshName l ∉ l := by
  intro hmem
  have hmk : ∀ cs : List Char, (String.mk cs).length = cs.length := fun _ => rfl
  have h1 : (freshName l).length = l.foldl (fun n s => n + s.length) 0 + 1 := by
    unfold freshName
    rw [hmk, List.length_replicate]
  have h2 := len_le_foldl l _ hmem
  omega

/-- The first component of a call is the rendering of its classified
outcome. -/
lemma computeViaSubprocess_fst (cfg : Config) (inp : RunInputs) :
    (computeViaSubprocess cfg inp).1 = render (classify cfg inp).1 := rfl

/-- The trace of a call brackets the body's events with workdir
creation and removal. -/
lemma computeViaSubprocess_snd (cfg : Config) (inp : RunInputs) :
    (computeViaSubprocess cfg inp).2 =
      Event.mkWorkdir (freshName inp.existing) ::
        ((classify cfg inp).2 ++ [Event.rmWorkdir (freshName inp.existing)]) := rfl

/-- The body between workdir creation and cleanup never touches the
working directory itself: no `mkWorkdir`/`rmWorkdir` event occurs in it. -/
lemma classify_no_workdir_events (cfg : Config) (inp : RunInputs) (n : String) :
    Event.mkWorkdir n ∉ (classify cfg inp).2 ∧ Event.rmWorkdir n ∉ (classify cfg inp).2 := by
  unfold classify timeoutEvents
  refine ⟨?_, ?_⟩ <;>
  · split
    · split
      · simp
      · split
        · split_ifs <;> simp
        · simp
    · simp

/-- `render` returns a value only for `success`. -/
lemma render_ok_inv (o : Outcome) (v : Json) (h : render o = .ok v) :
    o = .success v := by
  cases o <;> simp_all [render]

/-- The body classifies to `success` only through the codec. -/
lemma classify_success_inv (cfg : Config) (inp : RunInputs) (v : Json)
    (h : (classify cfg inp).1 = .success v) : codec inp.stdout = .success v := by
  unfold classify at h
  split at h
  · split at h
    · simp_all
    · split at h
      · simp_all
      · split_ifs at h
        all_goals simp_all
  · simp_all

/-- The codec succeeds only with a truthy `swhid` value. -/
lemma codec_success_inv (s : String) (v : Json) (h : codec s = .success v) :
    truthy v = true := by
  unfold codec at h
  split at h
  · simp_all
  · split_ifs at h
    all_goals
      first
        | (split at h <;> simp_all)
        | simp_all
  · simp_all

/-! ## Claims -/

/-- Claim C1: for every subprocess-mode compute call whose child exits 0
within the timeout, whose measured RSS does not exceed the configured
limit, and whose stdout parses as a JSON object with `ok = true` and a
non-empty `swhid` field, `compute` returns exactly that `swhid` string. -/
theorem C1_success_returns_swhid (cfg : Config) (inp : RunInputs)
    (fs : List (String × Json)) (s : String)
    (hpy : inp.pythonFound = true) (hsp : inp.spawnError = none)
    (hto : inp.timedOut = false)
    (hrss : inp.rssSample.getD 0 ≤ cfg.maxRssMb * 1024)
    (hexit : inp.exitCode = 0)
    (hparse : loads inp.stdout = .ok (.obj fs))
    (hok : objGet fs "ok" = some (.bool true))
    (hsw : objGet fs "swhid" = some (.str s))
    (hne : s ≠ "") :
    (computeViaSubprocess cfg inp).1 = .ok (.str s) := by
  rw [computeViaSubprocess_fst]
  unfold classify
  rw [hpy, hsp, hto]
  simp only [if_true, Bool.false_eq_true, if_false]
  rw [if_neg (Nat.not_lt.mpr hrss), if_neg (by simp [hexit])]
  simp [codec, hparse, hok, hsw, truthyOpt, truthy, hne, render]

def inpC1 : RunInputs :=
  { existing := [], pythonFound := true, spawnError := none, timedOut := false,
    terminateRaises := false, diesWithinGrace := false, rssSample := some 1000,
    exitCode := 0, stdout := "\x7b\"ok\": true, \"swhid\": \"swh:1:cnt:ab\"\x7d",
    stderr := "", rmFails := false }

theorem C1_witness :
    (computeViaSubprocess defaultConfig inpC1).1 = .ok (.str "swh:1:cnt:ab") :=
  C1_success_returns_swhid defaultConfig inpC1
    [("ok", .bool true), ("swhid", .str "swh:1:cnt:ab")] "swh:1:cnt:ab"
    rfl rfl rfl (by decide) rfl rfl rfl rfl (by decide)

/-- Claim C2: outcome classification precedence.  A timeout always yields
the TimedOut failure; otherwise a measured peak RSS over the limit yields
the ResourceExceeded failure regardless of exit code or response validity
(the response is discarded); otherwise a non-zero exit yields the
ImplementationFailure; otherwise the codec's verdict on stdout is
returned. -/
theorem C2_classification_precedence (cfg : Config) (inp : RunInputs)
    (hpy : inp.pythonFound = true) (hsp : inp.spawnError = none) :
    (inp.timedOut = true →
      kindOf (classify cfg inp).1 = .timedOut ∧
      (computeViaSubprocess cfg inp).1 =
        .error ⟨"RuntimeError",
          "Implementation timed out after " ++ toString cfg.timeout ++ "s"⟩) ∧
    (inp.timedOut = false → cfg.maxRssMb * 1024 < inp.rssSample.getD 0 →
      kindOf (classify cfg inp).1 = .resourceExceeded ∧
      (computeViaSubprocess cfg inp).1 =
        .error ⟨"RuntimeError",
          "RSS limit exceeded: " ++ toString (inp.rssSample.getD 0) ++ "KB > "
            ++ toString (cfg.maxRssMb * 1024) ++ "KB"⟩) ∧
    (inp.timedOut = false → inp.rssSample.getD 0 ≤ cfg.maxRssMb * 1024 →
      inp.exitCode ≠ 0 →
      kindOf (classify cfg inp).1 = .implementationFailure ∧
      (computeViaSubprocess cfg inp).1 =
        .error ⟨"RuntimeError",
          "Implementation failed (exit " ++ toString inp.exitCode ++ "): "
            ++ diagnostic inp.stderr inp.stdout⟩) ∧
    (inp.timedOut = false → inp.rssSample.getD 0 ≤ cfg.maxRssMb * 1024 →
      inp.exitCode = 0 →
      (computeViaSubprocess cfg inp).1 = render (codec inp.stdout)) := by
  refine ⟨fun hto => ?_, fun hto hr => ?_, fun hto hr he => ?_, fun hto hr he => ?_⟩
  · constructor
    · unfold classify
      rw [hpy, hsp, hto]
      rfl
    · rw [computeViaSubprocess_fst]
      unfold classify
      rw [hpy, hsp, hto]
      rfl
  · have hcl : (classify cfg inp).1 =
        .resourceExceeded (inp.rssSample.getD 0) (cfg.maxRssMb * 1024) := by
      unfold classify
      rw [hpy, hsp, hto]
      simp only [Bool.false_eq_true, if_false, if_true]
      rw [if_pos hr]
    exact ⟨by rw [hcl]; rfl, by rw [computeViaSubprocess_fst, hcl]; rfl⟩
  · have hcl : (classify cfg inp).1 =
        .implFailure inp.exitCode (diagnostic inp.stderr inp.stdout) := by
      unfold classify
      rw [hpy, hsp, hto]
      simp only [Bool.false_eq_true, if_false, if_true]
      rw [if_neg (Nat.not_lt.mpr hr), if_pos he]
    exact ⟨by rw [hcl]; rfl, by rw [computeViaSubprocess_fst, hcl]; rfl⟩
  · have hcl : (classify cfg inp).1 = codec inp.stdout := by
      unfold classify
      rw [hpy, hsp, hto]
      simp only [Bool.false_eq_true, if_false, if_true]
      rw [if_neg (Nat.not_lt.mpr hr), if_neg (by simp [he])]
    rw [computeViaSubprocess_fst, hcl]

/-- A run whose child exited 0 with a well-formed success response but
whose measured RSS (600 MB) exceeds the 500 MB default limit. -/
def inpC2 : RunInputs :=
  { existing := [], pythonFound := true, spawnError := none, timedOut := false,
    terminateRaises := false, diesWithinGrace := false,
    rssSample := some 614400, exitCode := 0,
    stdout := "\x7b\"ok\": true, \"swhid\": \"swh:1:cnt:ab\"\x7d",
    stderr := "", rmFails := false }

theorem C2_witness :
    (computeViaSubprocess defaultConfig inpC2).1 =
      .error ⟨"RuntimeError", "RSS limit exceeded: " ++ toString (614400 : Nat)
        ++ "KB > " ++ toString (512000 : Nat) ++ "KB"⟩ :=
  ((C2_classification_precedence defaultConfig inpC2 rfl rfl).2.1 rfl (by decide)).2

/-- A run that times out and whose child survives the 5-second grace
period, forcing the kill path. -/
def inpC3 : RunInputs :=
  { existing := [], pythonFound := true, spawnError := none, timedOut := true,
    terminateRaises := false, diesWithinGrace := false, rssSample := none,
    exitCode := 0, stdout := "", stderr := "", rmFails := false }

/-- Claim C3 is refuted on the kill path: the timeout handler signals only
the child process (never its process group), and after `kill()` the child
is not waited on, so the trace of this concrete timed-out run contains a
`kill` but neither a reap nor a group signal; the outcome is still the
TimedOut failure. -/
theorem C3_counterexample :
    (computeViaSubprocess defaultConfig inpC3).2 =
      [Event.mkWorkdir "x", Event.spawn, Event.sendRequest, Event.terminate,
        Event.waitGrace, Event.kill, Event.rmWorkdir "x"] ∧
    Event.kill ∈ (computeViaSubprocess defaultConfig inpC3).2 ∧
    Event.reaped ∉ (computeViaSubprocess defaultConfig inpC3).2 ∧
    Event.terminateGroup ∉ (computeViaSubprocess defaultConfig inpC3).2 ∧
    (computeViaSubprocess defaultConfig inpC3).1 =
      .error ⟨"RuntimeError", "Implementation timed out after 30s"⟩ := by
  have ht : (computeViaSubprocess defaultConfig inpC3).2 =
      [Event.mkWorkdir "x", Event.spawn, Event.sendRequest, Event.terminate,
        Event.waitGrace, Event.kill, Event.rmWorkdir "x"] := rfl
  refine ⟨ht, ?_, ?_, ?_, rfl⟩ <;> rw [ht] <;> decide

/-- Claim C3 (amended): on every timed-out run the outcome is the TimedOut
failure (never a success, even if the child exits during the grace
period); the handler sends a termination signal to the child process only
— never to its process group — then waits up to the 5-second grace
period; a child that dies within it is reaped, while a child that
survives it is killed and **not** waited on again before the call
returns. -/
theorem C3_amended_timeout_protocol (cfg : Config) (inp : RunInputs)
    (hpy : inp.pythonFound = true) (hsp : inp.spawnError = none)
    (hto : inp.timedOut = true) :
    (computeViaSubprocess cfg inp).1 =
      .error ⟨"RuntimeError",
        "Implementation timed out after " ++ toString cfg.timeout ++ "s"⟩ ∧
    Event.terminateGroup ∉ (computeViaSubprocess cfg inp).2 ∧
    (inp.terminateRaises = false →
      Event.terminate ∈ (computeViaSubprocess cfg inp).2 ∧
      Event.waitGrace ∈ (computeViaSubprocess cfg inp).2) ∧
    (inp.terminateRaises = false → inp.diesWithinGrace = true →
      Event.reaped ∈ (computeViaSubprocess cfg inp).2) ∧
    (inp.terminateRaises = false → inp.diesWithinGrace = false →
      Event.kill ∈ (computeViaSubprocess cfg inp).2 ∧
      Event.reaped ∉ (computeViaSubprocess cfg inp).2) := by
  have ht : (computeViaSubprocess cfg inp).2 =
      Event.mkWorkdir (freshName inp.existing) ::
        (([Event.spawn, Event.sendRequest] ++ timeoutEvents inp)
          ++ [Event.rmWorkdir (freshName inp.existing)]) := by
    rw [computeViaSubprocess_snd]
    have hcl : (classify cfg inp).2 = [Event.spawn, Event.sendRequest] ++ timeoutEvents inp := by
      unfold classify
      rw [hpy, hsp, hto]
      rfl
    rw [hcl]
  refine ⟨?_, ?_, fun htr => ?_, fun htr hd => ?_, fun htr hd => ?_⟩
  · rw [computeViaSubprocess_fst]
    have hcl : (classify cfg inp).1 = .timedOut cfg.timeout := by
      unfold classify
      rw [hpy, hsp, hto]
      rfl
    rw [hcl]
    rfl
  · rw [ht]
    unfold timeoutEvents
    split_ifs <;> simp
  · rw [ht]
    unfold timeoutEvents
    rw [htr]
    split_ifs <;> simp_all
  · rw [ht]
    unfold timeoutEvents
    rw [htr, hd]
    simp
  · rw [ht]
    unfold timeoutEvents
    rw [htr, hd]
    simp

theorem C3_witness :
    (computeViaSubprocess defaultConfig inpC3).1 =
      .error ⟨"RuntimeError",
        "Implementation timed out after " ++ toString (30 : Nat) ++ "s"⟩ ∧
    Event.kill ∈ (computeViaSubprocess defaultConfig inpC3).2 ∧
    Event.reaped ∉ (computeViaSubprocess defaultConfig inpC3).2 :=
  ⟨(C3_amended_timeout_protocol defaultConfig inpC3 rfl rfl rfl).1,
   ((C3_amended_timeout_protocol defaultConfig inpC3 rfl rfl rfl).2.2.2.2 rfl rfl).1,
   ((C3_amended_timeout_protocol defaultConfig inpC3 rfl rfl rfl).2.2.2.2 rfl rfl).2⟩

/-- A run whose child exits 1 with whitespace-only stderr and stdout
`"x"`. -/
def inpC4 : RunInputs :=
  { existing := [], pythonFound := true, spawnError := none, timedOut := false,
    terminateRaises := false, diesWithinGrace := false, rssSample := some 0,
    exitCode := 1, stdout := "x", stderr := " ", rmFails := false }

/-- Claim C4 is refuted: with non-empty (whitespace-only) stderr `" "` and
stdout `"x"`, the failure message is the prefixed
`"Implementation failed (exit 1): x"`; its diagnostic part is the
*stripped stdout*, not the (non-empty) stderr, and the full message does
not equal the stderr either. -/
theorem C4_counterexample :
    inpC4.stderr = " " ∧ (" " : String) ≠ "" ∧
    (computeViaSubprocess defaultConfig inpC4).1 =
      .error ⟨"RuntimeError", "Implementation failed (exit 1): x"⟩ ∧
    diagnostic inpC4.stderr inpC4.stdout = "x" ∧
    ("Implementation failed (exit 1): x" : String) ≠ " " ∧
    ("x" : String) ≠ " " :=
  ⟨rfl, by decide, rfl, rfl, by decide, by decide⟩

/-- Claim C4 (amended): for every run whose child exits non-zero (and is
not over timeout or the RSS limit), compute raises a RuntimeError whose
message is `"Implementation failed (exit N): D"`, where the diagnostic `D`
is the whitespace-stripped stderr if that is non-empty, else the
whitespace-stripped stdout if that is non-empty, else the placeholder
`"Unknown error"`. -/
theorem C4_amended_failure_message (cfg : Config) (inp : RunInputs)
    (hpy : inp.pythonFound = true) (hsp : inp.spawnError = none)
    (hto : inp.timedOut = false)
    (hrss : inp.rssSample.getD 0 ≤ cfg.maxRssMb * 1024)
    (hexit : inp.exitCode ≠ 0) :
    (computeViaSubprocess cfg inp).1 =
      .error ⟨"RuntimeError", "Implementation failed (exit " ++ toString inp.exitCode
        ++ "): " ++ diagnostic inp.stderr inp.stdout⟩ ∧
    (pyStrip inp.stderr ≠ "" → diagnostic inp.stderr inp.stdout = pyStrip inp.stderr) ∧
    (pyStrip inp.stderr = "" → pyStrip inp.stdout ≠ "" →
      diagnostic inp.stderr inp.stdout = pyStrip inp.stdout) ∧
    (pyStrip inp.stderr = "" → pyStrip inp.stdout = "" →
      diagnostic inp.stderr inp.stdout = "Unknown error") := by
  refine ⟨?_, fun h1 => ?_, fun h1 h2 => ?_, fun h1 h2 => ?_⟩
  · rw [computeViaSubprocess_fst]
    have hcl : (classify cfg inp).1 =
        .implFailure inp.exitCode (diagnostic inp.stderr inp.stdout) := by
      unfold classify
      rw [hpy, hsp, hto]
      simp only [Bool.false_eq_true, if_false, if_true]
      rw [if_neg (Nat.not_lt.mpr hrss), if_pos hexit]
    rw [hcl]
    rfl
  · unfold diagnostic
    rw [if_pos h1]
  · unfold diagnostic
    rw [if_neg (by simp [h1]), if_pos h2]
  · unfold diagnostic
    rw [if_neg (by simp [h1]), if_neg (by simp [h2])]

theorem C4_witness :
    (computeViaSubprocess defaultConfig inpC4).1 =
      .error ⟨"RuntimeError", "Implementation failed (exit " ++ toString (1 : Int)
        ++ "): " ++ diagnostic " " "x"⟩ :=
  (C4_amended_failure_message defaultConfig inpC4 rfl rfl rfl (by decide) (by decide)).1

/-- A run whose child exits 0 and writes a well-formed success document
followed by one trailing non-whitespace byte. -/
def inpC5 : RunInputs :=
  { existing := [], pythonFound := true, spawnError := none, timedOut := false,
    terminateRaises := false, diesWithinGrace := false, rssSample := some 0,
    exitCode := 0, stdout := "\x7b\"ok\": true, \"swhid\": \"x\"\x7dy",
    stderr := "", rmFails := false }

/-- Claim C5's second half is refuted: a trailing byte after the first
JSON document is *not* ignored — `json.loads` rejects it as extra data,
so this run fails with the Invalid-JSON ProtocolError instead of
returning the embedded `swhid`. -/
theorem C5_counterexample :
    loads inpC5.stdout = .error "Extra data" ∧
    (computeViaSubprocess defaultConfig inpC5).1 =
      .error ⟨"RuntimeError",
        "Invalid JSON response: Extra data\nOutput: " ++ pySlice200 inpC5.stdout⟩ ∧
    (computeViaSubprocess defaultConfig inpC5).1 ≠ .ok (.str "x") := by
  refine ⟨rfl, rfl, fun h => ?_⟩
  have h2 : (computeViaSubprocess defaultConfig inpC5).1 =
      .error ⟨"RuntimeError",
        "Invalid JSON response: Extra data\nOutput: " ++ pySlice200 inpC5.stdout⟩ := rfl
  rw [h2] at h
  exact Except.noConfusion h

/-- Claim C5 (amended): whenever stdout is not parseable as exactly one
JSON document, compute raises the Invalid-JSON ProtocolError, whose
message contains the (at most 200-code-point) prefix `stdout[:200]` of the
raw output; trailing non-whitespace input after the first JSON document is
such a parse failure (`"Extra data"`), not ignored. -/
theorem C5_amended_protocol_error (cfg : Config) (inp : RunInputs) (e : String)
    (hpy : inp.pythonFound = true) (hsp : inp.spawnError = none)
    (hto : inp.timedOut = false)
    (hrss : inp.rssSample.getD 0 ≤ cfg.maxRssMb * 1024)
    (hexit : inp.exitCode = 0)
    (hparse : loads inp.stdout = .error e) :
    (computeViaSubprocess cfg inp).1 =
      .error ⟨"RuntimeError",
        "Invalid JSON response: " ++ e ++ "\nOutput: " ++ pySlice200 inp.stdout⟩ ∧
    ("Invalid JSON response: " ++ e ++ "\nOutput: ") ++ pySlice200 inp.stdout =
      ("Invalid JSON response: " ++ e ++ "\nOutput: " ++ pySlice200 inp.stdout) ∧
    (pySlice200 inp.stdout).length ≤ 200 ∧
    List.IsPrefix (pySlice200 inp.stdout).data inp.stdout.data ∧
    (∀ v rest, parseValue (4 * (inp.stdout.data.length + 1)) (skipWs inp.stdout.data) =
        .ok (v, rest) →
      (skipWs rest).isEmpty = false → e = "Extra data") := by
  refine ⟨?_, by simp [String.append_assoc], ?_, ?_, fun v rest hpv hne => ?_⟩
  · rw [computeViaSubprocess_fst]
    have hcl : (classify cfg inp).1 = codec inp.stdout := by
      unfold classify
      rw [hpy, hsp, hto]
      simp only [Bool.false_eq_true, if_false, if_true]
      rw [if_neg (Nat.not_lt.mpr hrss), if_neg (by simp [hexit])]
    rw [hcl]
    unfold codec
    rw [hparse]
    rfl
  · have hmk : ∀ cs : List Char, (String.mk cs).length = cs.length := fun _ => rfl
    unfold pySlice200
    rw [hmk]
    exact le_trans (List.length_take_le 200 inp.stdout.data) (by simp)
  · exact List.take_prefix 200 inp.stdout.data
  · unfold loads at hparse
    rw [hpv] at hparse
    simp only [hne, Bool.false_eq_true, if_false, Except.error.injEq] at hparse
    exact hparse.symm

theorem C5_witness :
    (computeViaSubprocess defaultConfig inpC5).1 =
      .error ⟨"RuntimeError",
        "Invalid JSON response: " ++ "Extra data" ++ "\nOutput: " ++ pySlice200 inpC5.stdout⟩ :=
  (C5_amended_protocol_error defaultConfig inpC5 "Extra data" rfl rfl rfl (by decide)
    rfl rfl).1

/-- A run whose child exits 0 and writes the empty JSON object — valid
JSON, but with no `ok` field at all. -/
def inpC6 : RunInputs :=
  { existing := [], pythonFound := true, spawnError := none, timedOut := false,
    terminateRaises := false, diesWithinGrace := false, rssSample := some 0,
    exitCode := 0, stdout := "\x7b\x7d", stderr := "", rmFails := false }

/-- Claim C6 is refuted: a response that is a valid JSON object with the
`ok` field missing does not yield a ProtocolError — the code conflates it
with `ok = false` and raises the ImplementationError
`"Implementation error [UNKNOWN]: Unknown error"`. -/
theorem C6_counterexample :
    loads inpC6.stdout = .ok (.obj []) ∧
    objGet [] "ok" = none ∧
    (computeViaSubprocess defaultConfig inpC6).1 =
      .error ⟨"RuntimeError", "Implementation error [UNKNOWN]: Unknown error"⟩ ∧
    kindOf (codec inpC6.stdout) = Kind.implementationError ∧
    Kind.implementationError ≠ Kind.protocolError :=
  ⟨rfl, rfl, rfl, rfl, by decide⟩

/-- Claim C6 (amended): a parsed JSON object whose `ok` field is missing
or falsy is handled uniformly by the `ok = false` branch — the two cases
are conflated, not distinguished: compute raises an ImplementationError
whose code and message default to `UNKNOWN` / `Unknown error` when the
`error` object (or the whole field) is absent, and carry exactly the
child-reported strings when present. -/
theorem C6_amended_missing_ok_conflated (cfg : Config) (inp : RunInputs)
    (fs : List (String × Json))
    (hpy : inp.pythonFound = true) (hsp : inp.spawnError = none)
    (hto : inp.timedOut = false)
    (hrss : inp.rssSample.getD 0 ≤ cfg.maxRssMb * 1024)
    (hexit : inp.exitCode = 0)
    (hparse : loads inp.stdout = .ok (.obj fs))
    (hok : truthyOpt (objGet fs "ok") = false) :
    (objGet fs "error" = none →
      codec inp.stdout = .implError "UNKNOWN" "Unknown error" ∧
      (computeViaSubprocess cfg inp).1 =
        .error ⟨"RuntimeError", "Implementation error [UNKNOWN]: Unknown error"⟩) ∧
    (∀ efs c m, objGet fs "error" = some (.obj efs) →
      objGet efs "code" = some (.str c) → objGet efs "message" = some (.str m) →
      codec inp.stdout = .implError c m ∧
      (computeViaSubprocess cfg inp).1 =
        .error ⟨"RuntimeError", "Implementation error [" ++ c ++ "]: " ++ m⟩) := by
  have hcl : (classify cfg inp).1 = codec inp.stdout := by
    unfold classify
    rw [hpy, hsp, hto]
    simp only [Bool.false_eq_true, if_false, if_true]
    rw [if_neg (Nat.not_lt.mpr hrss), if_neg (by simp [hexit])]
  refine ⟨fun herr => ?_, fun efs c m herr hc hm => ?_⟩
  · have hcodec : codec inp.stdout = .implError "UNKNOWN" "Unknown error" := by
      unfold codec
      rw [hparse]
      simp only [hok, if_true, herr, Option.getD]
      rfl
    exact ⟨hcodec, by rw [computeViaSubprocess_fst, hcl, hcodec]; rfl⟩
  · have hcodec : codec inp.stdout = .implError c m := by
      unfold codec
      rw [hparse]
      simp only [hok, if_true, herr, Option.getD]
      unfold pyGetStr
      rw [hc, hm]
      rfl
    exact ⟨hcodec, by rw [computeViaSubprocess_fst, hcl, hcodec]; rfl⟩

/-- A run whose child reports a structured failure with code and
message. -/
def inpC6w : RunInputs :=
  { existing := [], pythonFound := true, spawnError := none, timedOut := false,
    terminateRaises := false, diesWithinGrace := false, rssSample := some 0,
    exitCode := 0,
    stdout := "\x7b\"ok\": false, \"error\": \x7b\"code\": \"E1\", \"message\": \"boom\"\x7d\x7d",
    stderr := "", rmFails := false }

theorem C6_witness :
    (computeViaSubprocess defaultConfig inpC6w).1 =
      .error ⟨"RuntimeError", "Implementation error [" ++ "E1" ++ "]: " ++ "boom"⟩ :=
  ((C6_amended_missing_ok_conflated defaultConfig inpC6w
      [("ok", .bool false), ("error", .obj [("code", .str "E1"), ("message", .str "boom")])]
      rfl rfl rfl (by decide) rfl rfl rfl).2
    [("code", .str "E1"), ("message", .str "boom")] "E1" "boom" rfl rfl rfl).2


/-- `String.append` acts as list append on the underlying data. -/
lemma data_append (s t : String) : (s ++ t).data = s.data ++ t.data := rfl

lemma isPrefixOf_append_self (xs ys : List Char) : xs.isPrefixOf (xs ++ ys) = true := by
  induction xs with
  | nil => simp [List.isPrefixOf]
  | cons a as ih => simp [List.isPrefixOf, ih]

lemma take_prefix_mono (n : Nat) (xs l : List Char) (h : xs <+: l) :
    xs.take n <+: l.take n := by
  obtain ⟨t, rfl⟩ := h
  rw [List.take_append_eq_append_take]
  exact ⟨_, rfl⟩

/-- A mismatch within the first `n` characters refutes the whole prefix
test. -/
lemma isPrefixOf_false_of_take (n : Nat) (xs l : List Char)
    (h : (xs.take n).isPrefixOf (l.take n) = false) : xs.isPrefixOf l = false := by
  by_contra hc
  rw [Bool.not_eq_false, List.isPrefixOf_iff_prefix] at hc
  have h2 := take_prefix_mono n xs l hc
  rw [← List.isPrefixOf_iff_prefix] at h2
  rw [h2] at h
  cases h

lemma ne_of_data_take_ne (s t : String) (n : Nat)
    (h : s.data.take n ≠ t.data.take n) : s ≠ t := by
  intro he
  subst he
  exact h rfl

/-- A run whose child exits 0 and writes `[]` — valid JSON, but not an
object. -/
def inpC7 : RunInputs :=
  { existing := [], pythonFound := true, spawnError := none, timedOut := false,
    terminateRaises := false, diesWithinGrace := false, rssSample := some 0,
    exitCode := 0, stdout := "[]", stderr := "", rmFails := false }

/-- The codec only ever produces one of these five outcome shapes. -/
lemma codec_cases (s : String) :
    (∃ e, codec s = .invalidJson e s) ∨ (∃ c m, codec s = .implError c m) ∨
    (∃ ty, codec s = .attrError ty) ∨ codec s = .noSwhid ∨
    ∃ v, codec s = .success v := by
  unfold codec
  split
  · exact Or.inl ⟨_, rfl⟩
  · split_ifs
    · split
      · exact Or.inr (Or.inl ⟨_, _, rfl⟩)
      · exact Or.inr (Or.inr (Or.inl ⟨_, rfl⟩))
    · exact Or.inr (Or.inr (Or.inr (Or.inl rfl)))
    · exact Or.inr (Or.inr (Or.inr (Or.inr ⟨_, rfl⟩)))
  · exact Or.inr (Or.inr (Or.inl ⟨_, rfl⟩))


/-- Claim C7 is refuted twice over: a valid-JSON non-object response makes
the call raise an `AttributeError`, an outcome outside the six-element
taxonomy; and distinct taxonomy failures (TimedOut, ResourceExceeded) are
both raised as the same generic `RuntimeError` class, distinguishable
only by message text, not as distinct inspectable error types. -/
theorem C7_counterexample :
    loads inpC7.stdout = .ok (.arr []) ∧
    kindOf (classify defaultConfig inpC7).1 = Kind.other ∧
    (computeViaSubprocess defaultConfig inpC7).1 =
      .error ⟨"AttributeError", "\x27list\x27 object has no attribute \x27get\x27"⟩ ∧
    render (Outcome.timedOut 30) =
      .error ⟨"RuntimeError", "Implementation timed out after 30s"⟩ ∧
    render (Outcome.resourceExceeded 614400 512000) =
      .error ⟨"RuntimeError", "RSS limit exceeded: 614400KB > 512000KB"⟩ :=
  ⟨rfl, rfl, rfl, rfl, rfl⟩

/-- Claim C7 (amended): once the interpreter is found and the spawn
succeeds, every call classifies to either one of the six taxonomy
outcomes or an `AttributeError` (raised when a parsed response, or its
`error` field, is not an object); and every non-success taxonomy outcome
is surfaced as a raised `RuntimeError` whose message prefix identifies
exactly its kind — kinds are distinguished by message text, not by
exception type. -/
theorem C7_amended_taxonomy (cfg : Config) (inp : RunInputs)
    (hpy : inp.pythonFound = true) (hsp : inp.spawnError = none) :
    (kindOf (classify cfg inp).1 ≠ Kind.other ∨
      ∃ ty, (classify cfg inp).1 = .attrError ty) ∧
    (∀ o : Outcome, kindOf o ≠ Kind.success → kindOf o ≠ Kind.other →
      ∃ m, render o = .error ⟨"RuntimeError", m⟩ ∧
        msgKind ⟨"RuntimeError", m⟩ = kindOf o) := by
  constructor
  · unfold classify
    rw [hpy, hsp]
    simp only [if_true]
    split
    · exact Or.inl fun h => Kind.noConfusion h
    · split_ifs
      · exact Or.inl fun h => Kind.noConfusion h
      · exact Or.inl fun h => Kind.noConfusion h
      · rcases codec_cases inp.stdout with ⟨e, hc⟩ | ⟨c, m, hc⟩ | ⟨ty, hc⟩ | hc | ⟨v, hc⟩ <;>
          rw [hc] <;>
          first
            | exact Or.inl fun h => Kind.noConfusion h
            | exact Or.inr ⟨_, rfl⟩
  · intro o h1 h2
    rcases o with ⟨v⟩ | ⟨t⟩ | ⟨kb, lim⟩ | ⟨c, d⟩ | ⟨e, r⟩ | ⟨c, m⟩ | _ | ⟨ty⟩ | _ | ⟨m⟩
    · exact absurd rfl h1
    · refine ⟨_, rfl, ?_⟩
      have hp : strHasPrefix "Implementation timed out after "
          ("Implementation timed out after " ++ toString t ++ "s") = true := by
        unfold strHasPrefix
        simp only [data_append, List.append_assoc]
        exact isPrefixOf_append_self _ _
      simp [msgKind, kindOf, hp]
    · refine ⟨_, rfl, ?_⟩
      have hn1 : strHasPrefix "Implementation timed out after "
          ("RSS limit exceeded: " ++ toString kb ++ "KB > " ++ toString lim ++ "KB") =
          false := by
        unfold strHasPrefix
        apply isPrefixOf_false_of_take 1
        simp only [data_append, List.append_assoc]
        rw [List.take_append_of_le_length (by decide)]
        decide
      have hp : strHasPrefix "RSS limit exceeded: "
          ("RSS limit exceeded: " ++ toString kb ++ "KB > " ++ toString lim ++ "KB") =
          true := by
        unfold strHasPrefix
        simp only [data_append, List.append_assoc]
        exact isPrefixOf_append_self _ _
      simp [msgKind, kindOf, hn1, hp]
    · refine ⟨_, rfl, ?_⟩
      have hn1 : strHasPrefix "Implementation timed out after "
          ("Implementation failed (exit " ++ toString c ++ "): " ++ d) = false := by
        unfold strHasPrefix
        apply isPrefixOf_false_of_take 16
        simp only [data_append, List.append_assoc]
        rw [List.take_append_of_le_length (by decide)]
        decide
      have hn2 : strHasPrefix "RSS limit exceeded: "
          ("Implementation failed (exit " ++ toString c ++ "): " ++ d) = false := by
        unfold strHasPrefix
        apply isPrefixOf_false_of_take 1
        simp only [data_append, List.append_assoc]
        rw [List.take_append_of_le_length (by decide)]
        decide
      have hp : strHasPrefix "Implementation failed (exit "
          ("Implementation failed (exit " ++ toString c ++ "): " ++ d) = true := by
        unfold strHasPrefix
        simp only [data_append, List.append_assoc]
        exact isPrefixOf_append_self _ _
      simp [msgKind, kindOf, hn1, hn2, hp]
    · refine ⟨_, rfl, ?_⟩
      have hn1 : strHasPrefix "Implementation timed out after "
          ("Invalid JSON response: " ++ e ++ "\nOutput: " ++ pySlice200 r) = false := by
        unfold strHasPrefix
        apply isPrefixOf_false_of_take 2
        simp only [data_append, List.append_assoc]
        rw [List.take_append_of_le_length (by decide)]
        decide
      have hn2 : strHasPrefix "RSS limit exceeded: "
          ("Invalid JSON response: " ++ e ++ "\nOutput: " ++ pySlice200 r) = false := by
        unfold strHasPrefix
        apply isPrefixOf_false_of_take 1
        simp only [data_append, List.append_assoc]
        rw [List.take_append_of_le_length (by decide)]
        decide
      have hn3 : strHasPrefix "Implementation failed (exit "
          ("Invalid JSON response: " ++ e ++ "\nOutput: " ++ pySlice200 r) = false := by
        unfold strHasPrefix
        apply isPrefixOf_false_of_take 2
        simp only [data_append, List.append_assoc]
        rw [List.take_append_of_le_length (by decide)]
        decide
      have hp : strHasPrefix "Invalid JSON response: "
          ("Invalid JSON response: " ++ e ++ "\nOutput: " ++ pySlice200 r) = true := by
        unfold strHasPrefix
        simp only [data_append, List.append_assoc]
        exact isPrefixOf_append_self _ _
      simp [msgKind, kindOf, hn1, hn2, hn3, hp]
    · refine ⟨_, rfl, ?_⟩
      have hn1 : strHasPrefix "Implementation timed out after "
          ("Implementation error [" ++ c ++ "]: " ++ m) = false := by
        unfold strHasPrefix
        apply isPrefixOf_false_of_take 16
        simp only [data_append, List.append_assoc]
        rw [List.take_append_of_le_length (by decide)]
        decide
      have hn2 : strHasPrefix "RSS limit exceeded: "
          ("Implementation error [" ++ c ++ "]: " ++ m) = false := by
        unfold strHasPrefix
        apply isPrefixOf_false_of_take 1
        simp only [data_append, List.append_assoc]
        rw [List.take_append_of_le_length (by decide)]
        decide
      have hn3 : strHasPrefix "Implementation failed (exit "
          ("Implementation error [" ++ c ++ "]: " ++ m) = false := by
        unfold strHasPrefix
        apply isPrefixOf_false_of_take 16
        simp only [data_append, List.append_assoc]
        rw [List.take_append_of_le_length (by decide)]
        decide
      have hn4 : strHasPrefix "Invalid JSON response: "
          ("Implementation error [" ++ c ++ "]: " ++ m) = false := by
        unfold strHasPrefix
        apply isPrefixOf_false_of_take 2
        simp only [data_append, List.append_assoc]
        rw [List.take_append_of_le_length (by decide)]
        decide
      have hn5 : ("Implementation error [" ++ c ++ "]: " ++ m) ≠
          "No SWHID in response" := by
        apply ne_of_data_take_ne _ _ 1
        simp only [data_append, List.append_assoc]
        rw [List.take_append_of_le_length (by decide)]
        decide
      have hp : strHasPrefix "Implementation error ["
          ("Implementation error [" ++ c ++ "]: " ++ m) = true := by
        unfold strHasPrefix
        simp only [data_append, List.append_assoc]
        exact isPrefixOf_append_self _ _
      simp [msgKind, kindOf, hn1, hn2, hn3, hn4, hn5, hp]
    · exact ⟨_, rfl, by rfl⟩
    · exact absurd rfl h2
    · exact absurd rfl h2
    · exact absurd rfl h2

theorem C7_witness :
    kindOf (classify defaultConfig inpC7).1 ≠ Kind.other ∨
      ∃ ty, (classify defaultConfig inpC7).1 = Outcome.attrError ty :=
  (C7_amended_taxonomy defaultConfig inpC7 rfl rfl).1

/-- Claim C8: every call's trace creates the (fresh, not-yet-existing)
working directory as its very first step — before the child is spawned —
and removes exactly that directory as its very last step, on every path
(success, typed failure, or exception, including the
interpreter-not-found and spawn-failure paths, where the body's trace is
empty); the body itself never creates or removes a working directory, and
an error during removal does not change the call's result. -/
theorem C8_workdir_discipline (cfg : Config) (inp : RunInputs) :
    freshName inp.existing ∉ inp.existing ∧
    (computeViaSubprocess cfg inp).2 =
      Event.mkWorkdir (freshName inp.existing) ::
        ((classify cfg inp).2 ++ [Event.rmWorkdir (freshName inp.existing)]) ∧
    (∀ n, Event.mkWorkdir n ∉ (classify cfg inp).2 ∧
      Event.rmWorkdir n ∉ (classify cfg inp).2) ∧
    (∀ b, (computeViaSubprocess cfg { inp with rmFails := b }).1 =
      (computeViaSubprocess cfg inp).1) := by
  refine ⟨freshName_not_mem inp.existing, computeViaSubprocess_snd cfg inp,
    fun n => classify_no_workdir_events cfg inp n, fun b => ?_⟩
  cases inp
  rfl

/-- A run whose child exits 0 with a valid success response but a 600 MB
RSS sample, used in subprocess mode. -/
def subC9 : RunInputs :=
  { existing := [], pythonFound := true, spawnError := none, timedOut := false,
    terminateRaises := false, diesWithinGrace := false, rssSample := some 614400,
    exitCode := 0, stdout := "\x7b\"ok\": true, \"swhid\": \"swh:1:cnt:ab\"\x7d",
    stderr := "", rmFails := false }

/-- The same implementation behaviour in in-process mode: the wrapped call
returns the identifier, but the RSS reading is 600 MB. -/
def monC9 : MonitorInputs :=
  { timedOut := false, implOutcome := .ok "swh:1:cnt:ab", startRssKb := 0,
    endRssKb := 614400, cpuMs := 0 }

/-- Claim C9 is refuted: the same behaviour (a successful computation over
the RSS ceiling) yields the ResourceExceeded failure in subprocess mode
but a differently-shaped, generic "Subprocess execution failed" wrapper in
in-process mode (the fallback's catch-all re-wraps its own limit-check
error), so the two modes do not share the outcome classification and a
caller can tell them apart from the result. -/
theorem C9_counterexample :
    computeSwhid defaultConfig true subC9 monC9 =
      .error ⟨"RuntimeError", "RSS limit exceeded: 614400KB > 512000KB"⟩ ∧
    computeSwhid defaultConfig false subC9 monC9 =
      .error ⟨"RuntimeError",
        "Subprocess execution failed: RSS limit exceeded: 614400KB > 512000KB"⟩ ∧
    msgKind ⟨"RuntimeError", "RSS limit exceeded: 614400KB > 512000KB"⟩ =
      Kind.resourceExceeded ∧
    msgKind ⟨"RuntimeError",
      "Subprocess execution failed: RSS limit exceeded: 614400KB > 512000KB"⟩ =
      Kind.other ∧
    Kind.resourceExceeded ≠ Kind.other :=
  ⟨rfl, rfl, rfl, rfl, by decide⟩

/-- Claim C9 (amended): the two modes share only the TimedOut message; in
the in-process fallback, every non-timeout failure — the fallback's own
RSS-ceiling violation, its own CPU-ceiling violation (both even when the
wrapped implementation returned a result), and any exception the wrapped
implementation raised — is re-wrapped as a generic
`"Subprocess execution failed: ..."` RuntimeError that matches no
taxonomy kind, so outcome classification differs between modes and a
caller can distinguish them from the result. -/
theorem C9_amended_mode_divergence (cfg : Config) (mon : MonitorInputs)
    (hto : mon.timedOut = false) :
    (∀ r, mon.implOutcome = .ok r →
      cfg.maxRssMb * 1024 < max mon.startRssKb mon.endRssKb →
      computeWithMonitoring cfg mon =
        .error ⟨"RuntimeError", "Subprocess execution failed: RSS limit exceeded: "
          ++ toString (max mon.startRssKb mon.endRssKb) ++ "KB > "
          ++ toString (cfg.maxRssMb * 1024) ++ "KB"⟩ ∧
      msgKind ⟨"RuntimeError", "Subprocess execution failed: RSS limit exceeded: "
          ++ toString (max mon.startRssKb mon.endRssKb) ++ "KB > "
          ++ toString (cfg.maxRssMb * 1024) ++ "KB"⟩ = Kind.other) ∧
    (∀ r, mon.implOutcome = .ok r →
      max mon.startRssKb mon.endRssKb ≤ cfg.maxRssMb * 1024 →
      cfg.maxCpuTime * 1000 < mon.cpuMs →
      computeWithMonitoring cfg mon =
        .error ⟨"RuntimeError", "Subprocess execution failed: CPU time limit exceeded: "
          ++ toString mon.cpuMs ++ "ms > " ++ toString (cfg.maxCpuTime * 1000) ++ "ms"⟩ ∧
      msgKind ⟨"RuntimeError", "Subprocess execution failed: CPU time limit exceeded: "
          ++ toString mon.cpuMs ++ "ms > " ++ toString (cfg.maxCpuTime * 1000) ++ "ms"⟩ =
        Kind.other) ∧
    (∀ e, mon.implOutcome = .error e →
      computeWithMonitoring cfg mon =
        .error ⟨"RuntimeError", "Subprocess execution failed: " ++ e⟩) ∧
    computeWithMonitoring cfg { mon with timedOut := true } =
      .error ⟨"RuntimeError",
        "Implementation timed out after " ++ toString cfg.timeout ++ "s"⟩ := by
  refine ⟨fun r hr hlim => ⟨?_, rfl⟩, fun r hr hrss hcpu => ⟨?_, rfl⟩, fun e he => ?_, ?_⟩
  · unfold computeWithMonitoring
    rw [hto, hr]
    simp only [Bool.false_eq_true, if_false]
    rw [if_pos hlim]
  · unfold computeWithMonitoring
    rw [hto, hr]
    simp only [Bool.false_eq_true, if_false]
    rw [if_neg (Nat.not_lt.mpr hrss), if_pos hcpu]
  · unfold computeWithMonitoring
    rw [hto, he]
    rfl
  · unfold computeWithMonitoring
    cases mon
    rfl

theorem C9_witness :
    computeWithMonitoring defaultConfig monC9 =
      .error ⟨"RuntimeError", "Subprocess execution failed: RSS limit exceeded: "
        ++ toString (614400 : Nat) ++ "KB > " ++ toString (512000 : Nat) ++ "KB"⟩ :=
  ((C9_amended_mode_divergence defaultConfig monC9 rfl).1 "swh:1:cnt:ab" rfl (by decide)).1

/-- Claim C10: compute never returns an empty identifier — a parsed
success response whose `swhid` field is absent, `null`, or the empty
string makes the call fail with the No-SWHID error instead of returning
it, and consequently every string the call does return is non-empty. -/
theorem C10_nonempty_swhid (cfg : Config) (inp : RunInputs) :
    (∀ fs, inp.pythonFound = true → inp.spawnError = none → inp.timedOut = false →
      inp.rssSample.getD 0 ≤ cfg.maxRssMb * 1024 → inp.exitCode = 0 →
      loads inp.stdout = .ok (.obj fs) → truthyOpt (objGet fs "ok") = true →
      (objGet fs "swhid" = none ∨ objGet fs "swhid" = some .null ∨
        objGet fs "swhid" = some (.str "")) →
      (computeViaSubprocess cfg inp).1 =
        .error ⟨"RuntimeError", "No SWHID in response"⟩) ∧
    (∀ s, (computeViaSubprocess cfg inp).1 = .ok (.str s) → s ≠ "") := by
  constructor
  · intro fs hpy hsp hto hrss hexit hparse hok hsw
    rw [computeViaSubprocess_fst]
    have hcl : (classify cfg inp).1 = codec inp.stdout := by
      unfold classify
      rw [hpy, hsp, hto]
      simp only [Bool.false_eq_true, if_false, if_true]
      rw [if_neg (Nat.not_lt.mpr hrss), if_neg (by simp [hexit])]
    rw [hcl]
    unfold codec
    rw [hparse]
    simp only [hok, Bool.true_eq_false, if_false]
    rcases hsw with h | h | h <;> rw [h] <;> rfl
  · intro s h
    rw [computeViaSubprocess_fst] at h
    have h2 := render_ok_inv _ _ h
    have h3 := classify_success_inv cfg inp _ h2
    have h4 := codec_success_inv inp.stdout _ h3
    simpa [truthy] using h4

/-- A run whose child reports success but omits the `swhid` field. -/
def inpC10 : RunInputs :=
  { existing := [], pythonFound := true, spawnError := none, timedOut := false,
    terminateRaises := false, diesWithinGrace := false, rssSample := some 0,
    exitCode := 0, stdout := "\x7b\"ok\": true\x7d", stderr := "", rmFails := false }

theorem C10_witness :
    (computeViaSubprocess defaultConfig inpC10).1 =
      .error ⟨"RuntimeError", "No SWHID in response"⟩ :=
  (C10_nonempty_swhid defaultConfig inpC10).1 [("ok", .bool true)]
    rfl rfl rfl (by decide) rfl rfl rfl (Or.inl rfl)
